import Mathlib

/-!
Shallow embedding of the two cluster job-submission adapters
(src/scheduling/Snakefile_qsub.py and src/scheduling/Snakefile_sbatch.py).

Pure parts of the Python code (string splitting, integer parsing, config
lookup, dependency encoding, file naming, command building) become Lean
functions; the effectful schedule() method together with the __main__
UndefinedJobRule handler becomes a function producing a RunResult: the
ordered list of abstract events, the lines printed to stdout and stderr,
and the process exit behaviour.  The captured output of the external
submission tool is an input parameter.
-/

/-- Models Python str.split() with no arguments: split on runs of
whitespace, discarding empty pieces.  First argument is the remaining
input, second the (reversed) current token. -/
def pySplitChars : List Char → List Char → List String
  | [], acc => if acc.isEmpty then [] else [String.mk acc.reverse]
  | c :: rest, acc =>
    if c.isWhitespace then
      (if acc.isEmpty then [] else [String.mk acc.reverse]) ++ pySplitChars rest []
    else
      pySplitChars rest (c :: acc)

/-- Python str.split() on a string. -/
def pySplit (s : String) : List String := pySplitChars s.toList []

/-- After an initial digit, Python int() accepts digits with single
underscores standing between digits. -/
def pyDigitsRest : List Char → Bool
  | [] => true
  | '_' :: rest =>
    match rest with
    | [] => false
    | c :: rest2 => c.isDigit && pyDigitsRest rest2
  | c :: rest => c.isDigit && pyDigitsRest rest

/-- A nonempty digit run acceptable to Python int() after the optional sign. -/
def pyDigits : List Char → Bool
  | [] => false
  | c :: rest => c.isDigit && pyDigitsRest rest

/-- Decimal value of a list of digit characters. -/
def digitsToNat (cs : List Char) : Nat :=
  cs.foldl (fun acc c => 10 * acc + (c.toNat - 48)) 0

/-- Python int() strips surrounding whitespace before parsing. -/
def pyStrip (cs : List Char) : List Char :=
  ((cs.dropWhile Char.isWhitespace).reverse.dropWhile Char.isWhitespace).reverse

/-- Models Python int(s): optional sign, then a digit run (with
underscore grouping); None models the ValueError. -/
def pyParseInt (s : String) : Option Int :=
  match pyStrip s.toList with
  | '+' :: rest =>
    if pyDigits rest then some (Int.ofNat (digitsToNat (rest.filter Char.isDigit))) else none
  | '-' :: rest =>
    if pyDigits rest then some (-(Int.ofNat (digitsToNat (rest.filter Char.isDigit)))) else none
  | rest =>
    if pyDigits rest then some (Int.ofNat (digitsToNat (rest.filter Char.isDigit))) else none

/-- A value of the JSON configuration table: a string (possibly a
redirect to another schedule key) or an object of string fields.  Python
distinguishes the two cases dynamically: .startswith raises
AttributeError on a dict, which the code catches and ignores. -/
inductive ConfigVal where
  | str (s : String)
  | obj (fields : List (String × String))
deriving DecidableEq

/-- The loaded JSON configuration table. -/
abbrev Config := List (String × ConfigVal)

/-- Python dict lookup config[key] on the table (keys are unique in a
Python dict; first match in the association list). -/
def cfgLookup : Config → String → Option ConfigVal
  | [], _ => none
  | (k, v) :: rest, key => if k = key then some v else cfgLookup rest key

/-- Python dict lookup d[key] on a record of fields; none models KeyError. -/
def dictGet : List (String × String) → String → Option String
  | [], _ => none
  | (k, v) :: rest, key => if k = key then some v else dictGet rest key

/-- Python d.get(key, default). -/
def dictGetD (fields : List (String × String)) (key dflt : String) : String :=
  (dictGet fields key).getD dflt

/-- Access self.config[sectionKey][fieldKey]: none models the uncaught
KeyError (or TypeError when the section is not an object). -/
def generalField (cfg : Config) (sectionKey fieldKey : String) : Option String :=
  match cfgLookup cfg sectionKey with
  | some (ConfigVal.obj fields) => dictGet fields fieldKey
  | _ => none

/-- The job metadata read by SnakeJob.__init__ from the generated
script (rule name, input and output paths) together with the
command-line dependency list (None when the argument was absent). -/
structure SnakeJob where
  scriptname : String
  rule : String
  ifiles : List String
  ofiles : List String
  dependencies : Option (List String)
deriving DecidableEq

/-- SnakeJob.__init__: a dependency list that is None or shorter than 1
is normalized to None. -/
def normalizeDeps : Option (List String) → Option (List String)
  | none => none
  | some l => if l.length < 1 then none else some l

/-- SnakeJobQsub.__init__ dependency encoding. -/
def qsub_dep_str (deps : Option (List String)) : String :=
  match normalizeDeps deps with
  | none => ""
  | some l => "-hold_jid " ++ String.intercalate "," l

/-- SnakeJobSbatch.__init__ dependency encoding. -/
def sbatch_dep_str (deps : Option (List String)) : String :=
  match normalizeDeps deps with
  | none => ""
  | some l => "-d " ++ String.intercalate "," (l.map (fun d => "afterok:" ++ d))

/-- log_file attribute of SnakeJobQsub.schedule. -/
def qsub_log_file (job : SnakeJob) : String :=
  match job.ofiles with
  | o :: _ => o ++ "-qsub.out"
  | [] => "snakemake-" ++ job.rule ++ "-qsub.out"

/-- err_file attribute of SnakeJobQsub.schedule. -/
def qsub_err_file (job : SnakeJob) : String :=
  match job.ofiles with
  | o :: _ => o ++ "-qsub.err"
  | [] => "snakemake-" ++ job.rule ++ "-qsub.err"

/-- log_file attribute of SnakeJobSbatch.schedule (the sbatch variant
defines no err_file). -/
def sbatch_log_file (job : SnakeJob) : String :=
  match job.ofiles with
  | o :: _ => o ++ "-slurm.out"
  | [] => "snakemake-" ++ job.rule ++ "-slurm.out"

/-- A single-quote character as a string (used around the script name). -/
def squote : String := (Char.ofNat 39).toString

/-- The 20 spaces of indentation that survive the backslash-newline
line continuations inside the Python triple-quoted command templates. -/
def contIndent : String := String.mk (List.replicate 20 ' ')

/-- The qsub command template of SnakeJobQsub.schedule, with the
attribute values substituted in source order. -/
def qsub_cmd (log_file err_file dep_str queue threads job_name extra_parameters
    qsub_job_path script_name : String) : String :=
  "qsub -o " ++ log_file ++ " -e " ++ err_file ++ " " ++ dep_str ++ " -q " ++ queue ++
    " -pe smp " ++ threads ++ " " ++ contIndent ++ "-N " ++ job_name ++ " " ++
    extra_parameters ++ " " ++ qsub_job_path ++ " " ++ contIndent ++
    squote ++ script_name ++ squote

/-- The sbatch command template of SnakeJobSbatch.schedule, with the
attribute values substituted in source order. -/
def sbatch_cmd (log_file dep_str account partition cores days hours minutes job_name
    extra_parameters sbatch_job_path script_name : String) : String :=
  "sbatch --output=" ++ log_file ++ " " ++ dep_str ++ " -A " ++ account ++ " -p " ++
    partition ++ " -n " ++ cores ++ " -t " ++ days ++ "-" ++ hours ++ ":" ++ minutes ++
    ":00 " ++ contIndent ++ "-J " ++ job_name ++ " " ++ extra_parameters ++ " " ++
    sbatch_job_path ++ " " ++ contIndent ++ squote ++ script_name ++ squote

/-- Models Python str.startswith, by character-list comparison. -/
def pyStartsWith (s p : String) : Bool := p.toList.isPrefixOf s.toList

/-- Substring containment on character lists (used only to state facts
about built command strings). -/
def containsChars (pat : List Char) : List Char → Bool
  | [] => pat.isEmpty
  | c :: rest => pat.isPrefixOf (c :: rest) || containsChars pat rest

/-- The configuration-resolution logic shared verbatim by both
schedule() methods (lines 65 to 76 of each file): look up
schedule_<rule>; a missing key raises UndefinedJobRule naming
schedule_<rule>; a string value starting with schedule_ is re-looked-up
once, and a missing redirect target raises UndefinedJobRule naming the
target string; an object value (AttributeError on .startswith, passed)
or a non-redirect string is used as-is. -/
def resolveRuleConf (cfg : Config) (rule : String) : Except String ConfigVal :=
  match cfgLookup cfg ("schedule_" ++ rule) with
  | none => Except.error ("No schedule config found for schedule_" ++ rule)
  | some (ConfigVal.obj r) => Except.ok (ConfigVal.obj r)
  | some (ConfigVal.str s) =>
    if pyStartsWith s "schedule_" then
      match cfgLookup cfg s with
      | some v2 => Except.ok v2
      | none => Except.error ("No schedule config found for " ++ s)
    else
      Except.ok (ConfigVal.str s)

/-- Outcome of the job-id extraction block: ok prints the integer to
stdout; valueError is the caught ValueError branch printing the
diagnostic and exiting 2; indexError is the uncaught IndexError raised
by the token subscript before int() ever runs. -/
inductive ExtractResult where
  | ok (id : Int)
  | valueError (raw : String)
  | indexError
deriving DecidableEq

/-- int(popenrv[0].split()[2]) of the qsub adapter: the third
whitespace-delimited token of the captured text. -/
def qsubExtract (raw : String) : ExtractResult :=
  match (pySplit raw)[2]? with
  | none => ExtractResult.indexError
  | some tok =>
    match pyParseInt tok with
    | some i => ExtractResult.ok i
    | none => ExtractResult.valueError raw

/-- int(popenrv[0].split()[-1]) of the sbatch adapter: the last
whitespace-delimited token of the captured text. -/
def sbatchExtract (raw : String) : ExtractResult :=
  match (pySplit raw).getLast? with
  | none => ExtractResult.indexError
  | some tok =>
    match pyParseInt tok with
    | some i => ExtractResult.ok i
    | none => ExtractResult.valueError raw

/-- Abstract steps of one adapter invocation. -/
inductive Event where
  | start
  | metadataParsed
  | directoryEnsured
  | configMissing
  | configResolved
  | commandBuilt
  | submitted
  | idExtracted
  | extractionFailed
  | uncaughtIndexError
deriving DecidableEq

/-- How the adapter process ends: normal return, sys.exit with a code,
or an uncaught Python exception. -/
inductive RunExit where
  | normal
  | exited (code : Nat)
  | crashed (exc : String)
deriving DecidableEq

/-- Observable outcome of one adapter invocation: ordered events, the
lines printed to stdout, the lines printed to stderr, and the exit. -/
structure RunResult where
  events : List Event
  stdoutLines : List String
  stderrLines : List String
  exit : RunExit
deriving DecidableEq

/-- Events before configuration resolution: SnakeJob.__init__ parses the
metadata, then schedule() calls make_dir on the first output path's
directory when the job declares any outputs. -/
def preEvents (job : SnakeJob) : List Event :=
  [Event.start, Event.metadataParsed] ++
    (if job.ofiles.length > 0 then [Event.directoryEnsured] else [])

/-- SnakeJobQsub.schedule together with the __main__ handler that
catches UndefinedJobRule, prints its message to stderr and exits 2.
The captured parameter is the combined stdout/stderr text returned by
the external qsub process. -/
def qsubSchedule (job : SnakeJob) (cfg : Config) (captured : String) : RunResult :=
  match resolveRuleConf cfg job.rule with
  | Except.error msg =>
    ⟨preEvents job ++ [Event.configMissing], [], [msg], RunExit.exited 2⟩
  | Except.ok (ConfigVal.str _) =>
    ⟨preEvents job ++ [Event.configResolved], [], [], RunExit.crashed "TypeError"⟩
  | Except.ok (ConfigVal.obj rule_conf) =>
    match generalField cfg "qsub_general" "wrapper_script",
        dictGet rule_conf "queue", dictGet rule_conf "threads" with
    | some wrapper_script, some queue, some threads =>
      let cmd := qsub_cmd (qsub_log_file job) (qsub_err_file job)
        (qsub_dep_str job.dependencies) queue threads ("snakemake_" ++ job.rule)
        (dictGetD rule_conf "extra_parameters" "") wrapper_script job.scriptname
      let ev := preEvents job ++
        [Event.configResolved, Event.commandBuilt, Event.submitted]
      match qsubExtract captured with
      | ExtractResult.ok i =>
        ⟨ev ++ [Event.idExtracted], [toString i], [cmd], RunExit.normal⟩
      | ExtractResult.valueError raw =>
        ⟨ev ++ [Event.extractionFailed], ["Not a submitted job: " ++ raw], [cmd],
          RunExit.exited 2⟩
      | ExtractResult.indexError =>
        ⟨ev ++ [Event.uncaughtIndexError], [], [cmd], RunExit.crashed "IndexError"⟩
    | _, _, _ =>
      ⟨preEvents job ++ [Event.configResolved], [], [], RunExit.crashed "KeyError"⟩

/-- SnakeJobSbatch.schedule together with the __main__ handler that
catches UndefinedJobRule, prints its message to stderr and exits 2.
The captured parameter is the combined stdout/stderr text returned by
the external sbatch process. -/
def sbatchSchedule (job : SnakeJob) (cfg : Config) (captured : String) : RunResult :=
  match resolveRuleConf cfg job.rule with
  | Except.error msg =>
    ⟨preEvents job ++ [Event.configMissing], [], [msg], RunExit.exited 2⟩
  | Except.ok (ConfigVal.str _) =>
    ⟨preEvents job ++ [Event.configResolved], [], [], RunExit.crashed "TypeError"⟩
  | Except.ok (ConfigVal.obj rule_conf) =>
    match generalField cfg "sbatch_general" "wrapper_script",
        generalField cfg "sbatch_general" "account",
        dictGet rule_conf "days", dictGet rule_conf "hours",
        dictGet rule_conf "minutes", dictGet rule_conf "partition",
        dictGet rule_conf "cores" with
    | some wrapper_script, some account, some days, some hours, some minutes,
        some partition, some cores =>
      let cmd := sbatch_cmd (sbatch_log_file job) (sbatch_dep_str job.dependencies)
        account partition cores days hours minutes ("snakemake_" ++ job.rule)
        (dictGetD rule_conf "extra_parameters" "") wrapper_script job.scriptname
      let ev := preEvents job ++
        [Event.configResolved, Event.commandBuilt, Event.submitted]
      match sbatchExtract captured with
      | ExtractResult.ok i =>
        ⟨ev ++ [Event.idExtracted], [toString i], [cmd], RunExit.normal⟩
      | ExtractResult.valueError raw =>
        ⟨ev ++ [Event.extractionFailed], ["Not a submitted job: " ++ raw], [cmd],
          RunExit.exited 2⟩
      | ExtractResult.indexError =>
        ⟨ev ++ [Event.uncaughtIndexError], [], [cmd], RunExit.crashed "IndexError"⟩
    | _, _, _, _, _, _, _ =>
      ⟨preEvents job ++ [Event.configResolved], [], [], RunExit.crashed "KeyError"⟩

/-- The order in which the code actually performs the steps: the output
directory is ensured before the configuration is resolved. -/
def codeEventOrder : List Event :=
  [Event.start, Event.metadataParsed, Event.directoryEnsured, Event.configMissing,
    Event.configResolved, Event.commandBuilt, Event.submitted, Event.idExtracted,
    Event.extractionFailed, Event.uncaughtIndexError]

/-- The order the specification claims: configuration resolution before
directory creation. -/
def specEventOrder : List Event :=
  [Event.start, Event.metadataParsed, Event.configMissing, Event.configResolved,
    Event.directoryEnsured, Event.commandBuilt, Event.submitted, Event.idExtracted,
    Event.extractionFailed, Event.uncaughtIndexError]

/-- Fixture: a job with one declared output path and no dependencies. -/
def jobOut : SnakeJob :=
  ⟨"job.sh", "foo", [], ["out/a.txt"], none⟩

/-- Fixture: a job with no declared output paths. -/
def jobNoOut : SnakeJob :=
  ⟨"job.sh", "foo", [], [], none⟩

/-- Fixture: a qsub configuration table with a concrete record for rule foo. -/
def cfgQsub : Config :=
  [("schedule_foo", ConfigVal.obj [("queue", "batch.q"), ("threads", "4")]),
   ("qsub_general", ConfigVal.obj [("wrapper_script", "wrap.sh")])]

/-- Fixture: an sbatch configuration table with a concrete record for rule foo. -/
def cfgSbatch : Config :=
  [("schedule_foo", ConfigVal.obj
      [("days", "0"), ("hours", "1"), ("minutes", "30"),
       ("partition", "core"), ("cores", "8")]),
   ("sbatch_general", ConfigVal.obj
      [("wrapper_script", "wrap.sh"), ("account", "b2010008")])]

/-- Fixture: rule foo redirects to the concrete record of rule bar. -/
def cfgRedirOk : Config :=
  [("schedule_foo", ConfigVal.str "schedule_bar"),
   ("schedule_bar", ConfigVal.obj [("queue", "long.q"), ("threads", "2")])]

/-- Fixture: rule foo redirects to a key absent from the table. -/
def cfgRedirBad : Config :=
  [("schedule_foo", ConfigVal.str "schedule_bar")]

/-- The single stderr line (the echoed submission command) of a concrete
successful sbatch invocation for a job with one output path. -/
def sbatchEchoFoo : String :=
  (sbatchSchedule jobOut cfgSbatch "Submitted batch job 98765").stderrLines.headD ""

theorem mem_preEvents {e : Event} {job : SnakeJob} (h : e ∈ preEvents job) :
    e = Event.start ∨ e = Event.metadataParsed ∨ e = Event.directoryEnsured := by
  unfold preEvents at h
  by_cases hl : job.ofiles.length > 0 <;> simp [hl] at h <;> tauto

theorem notin_pre_append {e : Event} {job : SnakeJob} {l : List Event}
    (he1 : e ≠ Event.start) (he2 : e ≠ Event.metadataParsed)
    (he3 : e ≠ Event.directoryEnsured) (hl : e ∉ l) :
    e ∉ preEvents job ++ l := by
  intro h
  rcases List.mem_append.mp h with h1 | h1
  · rcases mem_preEvents h1 with h2 | h2 | h2
    · exact he1 h2
    · exact he2 h2
    · exact he3 h2
  · exact hl h1

theorem pre_sublist (job : SnakeJob) :
    (preEvents job).Sublist [Event.start, Event.metadataParsed, Event.directoryEnsured] := by
  unfold preEvents
  by_cases hl : job.ofiles.length > 0 <;> simp [hl]

theorem string_append_left_cancel {p a b : String} (h : p ++ a = p ++ b) : a = b := by
  cases p with | mk pd =>
  cases a with | mk ad =>
  cases b with | mk bd =>
  have hd : pd ++ ad = pd ++ bd := congrArg String.data h
  exact congrArg String.mk (List.append_cancel_left hd)

theorem append_ne_empty_left {a b : String} (ha : 0 < a.length) : a ++ b ≠ "" := by
  intro h
  have hlen := congrArg String.length h
  rw [String.length_append] at hlen
  have : String.length "" = 0 := rfl
  omega

theorem qsubExtract_of_parse_ok {cap tok : String} {i : Int}
    (h1 : (pySplit cap)[2]? = some tok) (h2 : pyParseInt tok = some i) :
    qsubExtract cap = ExtractResult.ok i := by
  simp [qsubExtract, h1, h2]

theorem qsubExtract_of_parse_fail {cap tok : String}
    (h1 : (pySplit cap)[2]? = some tok) (h2 : pyParseInt tok = none) :
    qsubExtract cap = ExtractResult.valueError cap := by
  simp [qsubExtract, h1, h2]

theorem qsubExtract_of_short {cap : String} (h : (pySplit cap).length < 3) :
    qsubExtract cap = ExtractResult.indexError := by
  have h2 : (pySplit cap)[2]? = none := List.getElem?_eq_none (by omega)
  simp [qsubExtract, h2]

theorem sbatchExtract_of_parse_ok {cap tok : String} {i : Int}
    (h1 : (pySplit cap).getLast? = some tok) (h2 : pyParseInt tok = some i) :
    sbatchExtract cap = ExtractResult.ok i := by
  simp [sbatchExtract, h1, h2]

theorem sbatchExtract_of_parse_fail {cap tok : String}
    (h1 : (pySplit cap).getLast? = some tok) (h2 : pyParseInt tok = none) :
    sbatchExtract cap = ExtractResult.valueError cap := by
  simp [sbatchExtract, h1, h2]

theorem sbatchExtract_of_empty {cap : String} (h : pySplit cap = []) :
    sbatchExtract cap = ExtractResult.indexError := by
  have h2 : (pySplit cap).getLast? = none := List.getLast?_eq_none_iff.mpr h
  simp [sbatchExtract, h2]

theorem qsubExtract_valueError_raw {cap raw : String}
    (h : qsubExtract cap = ExtractResult.valueError raw) : raw = cap := by
  unfold qsubExtract at h
  rcases h1 : (pySplit cap)[2]? with _ | tok
  · simp [h1] at h
  · rcases h2 : pyParseInt tok with _ | i
    · simp [h1, h2] at h
      exact h.symm
    · simp [h1, h2] at h

theorem sbatchExtract_valueError_raw {cap raw : String}
    (h : sbatchExtract cap = ExtractResult.valueError raw) : raw = cap := by
  unfold sbatchExtract at h
  rcases h1 : (pySplit cap).getLast? with _ | tok
  · simp [h1] at h
  · rcases h2 : pyParseInt tok with _ | i
    · simp [h1, h2] at h
      exact h.symm
    · simp [h1, h2] at h

theorem qsub_shape (job : SnakeJob) (cfg : Config) (cap : String) :
    (∃ msg, resolveRuleConf cfg job.rule = Except.error msg ∧ qsubSchedule job cfg cap =
        ⟨preEvents job ++ [Event.configMissing], [], [msg], RunExit.exited 2⟩) ∨
    (∃ exc, qsubSchedule job cfg cap =
        ⟨preEvents job ++ [Event.configResolved], [], [], RunExit.crashed exc⟩) ∨
    (∃ i cmd, qsubExtract cap = ExtractResult.ok i ∧ qsubSchedule job cfg cap =
        ⟨preEvents job ++ [Event.configResolved, Event.commandBuilt, Event.submitted,
          Event.idExtracted], [toString i], [cmd], RunExit.normal⟩) ∨
    (∃ cmd, qsubExtract cap = ExtractResult.valueError cap ∧ qsubSchedule job cfg cap =
        ⟨preEvents job ++ [Event.configResolved, Event.commandBuilt, Event.submitted,
          Event.extractionFailed], ["Not a submitted job: " ++ cap], [cmd],
          RunExit.exited 2⟩) ∨
    (∃ cmd, qsubExtract cap = ExtractResult.indexError ∧ qsubSchedule job cfg cap =
        ⟨preEvents job ++ [Event.configResolved, Event.commandBuilt, Event.submitted,
          Event.uncaughtIndexError], [], [cmd], RunExit.crashed "IndexError"⟩) := by
  rcases hres : resolveRuleConf cfg job.rule with msg | v
  · exact Or.inl ⟨msg, rfl, by simp [qsubSchedule, hres]⟩
  · rcases v with s | rc
    · exact Or.inr (Or.inl ⟨"TypeError", by simp [qsubSchedule, hres]⟩)
    · rcases h1 : generalField cfg "qsub_general" "wrapper_script" with _ | w
      · exact Or.inr (Or.inl ⟨"KeyError", by simp [qsubSchedule, hres, h1]⟩)
      · rcases h2 : dictGet rc "queue" with _ | q
        · exact Or.inr (Or.inl ⟨"KeyError", by simp [qsubSchedule, hres, h1, h2]⟩)
        · rcases h3 : dictGet rc "threads" with _ | t
          · exact Or.inr (Or.inl ⟨"KeyError", by simp [qsubSchedule, hres, h1, h2, h3]⟩)
          · rcases hx : qsubExtract cap with i | raw | _
            · exact Or.inr (Or.inr (Or.inl ⟨i,
                qsub_cmd (qsub_log_file job) (qsub_err_file job)
                  (qsub_dep_str job.dependencies) q t ("snakemake_" ++ job.rule)
                  (dictGetD rc "extra_parameters" "") w job.scriptname, rfl,
                by simp [qsubSchedule, hres, h1, h2, h3, hx]⟩))
            · have hraw := qsubExtract_valueError_raw hx
              subst hraw
              exact Or.inr (Or.inr (Or.inr (Or.inl ⟨
                qsub_cmd (qsub_log_file job) (qsub_err_file job)
                  (qsub_dep_str job.dependencies) q t ("snakemake_" ++ job.rule)
                  (dictGetD rc "extra_parameters" "") w job.scriptname, rfl,
                by simp [qsubSchedule, hres, h1, h2, h3, hx]⟩)))
            · exact Or.inr (Or.inr (Or.inr (Or.inr ⟨
                qsub_cmd (qsub_log_file job) (qsub_err_file job)
                  (qsub_dep_str job.dependencies) q t ("snakemake_" ++ job.rule)
                  (dictGetD rc "extra_parameters" "") w job.scriptname, rfl,
                by simp [qsubSchedule, hres, h1, h2, h3, hx]⟩)))

theorem sbatch_shape (job : SnakeJob) (cfg : Config) (cap : String) :
    (∃ msg, resolveRuleConf cfg job.rule = Except.error msg ∧ sbatchSchedule job cfg cap =
        ⟨preEvents job ++ [Event.configMissing], [], [msg], RunExit.exited 2⟩) ∨
    (∃ exc, sbatchSchedule job cfg cap =
        ⟨preEvents job ++ [Event.configResolved], [], [], RunExit.crashed exc⟩) ∨
    (∃ i cmd, sbatchExtract cap = ExtractResult.ok i ∧ sbatchSchedule job cfg cap =
        ⟨preEvents job ++ [Event.configResolved, Event.commandBuilt, Event.submitted,
          Event.idExtracted], [toString i], [cmd], RunExit.normal⟩) ∨
    (∃ cmd, sbatchExtract cap = ExtractResult.valueError cap ∧ sbatchSchedule job cfg cap =
        ⟨preEvents job ++ [Event.configResolved, Event.commandBuilt, Event.submitted,
          Event.extractionFailed], ["Not a submitted job: " ++ cap], [cmd],
          RunExit.exited 2⟩) ∨
    (∃ cmd, sbatchExtract cap = ExtractResult.indexError ∧ sbatchSchedule job cfg cap =
        ⟨preEvents job ++ [Event.configResolved, Event.commandBuilt, Event.submitted,
          Event.uncaughtIndexError], [], [cmd], RunExit.crashed "IndexError"⟩) := by
  rcases hres : resolveRuleConf cfg job.rule with msg | v
  · exact Or.inl ⟨msg, rfl, by simp [sbatchSchedule, hres]⟩
  · rcases v with s | rc
    · exact Or.inr (Or.inl ⟨"TypeError", by simp [sbatchSchedule, hres]⟩)
    · rcases h1 : generalField cfg "sbatch_general" "wrapper_script" with _ | w
      · exact Or.inr (Or.inl ⟨"KeyError", by simp [sbatchSchedule, hres, h1]⟩)
      · rcases h2 : generalField cfg "sbatch_general" "account" with _ | a
        · exact Or.inr (Or.inl ⟨"KeyError", by simp [sbatchSchedule, hres, h1, h2]⟩)
        · rcases h3 : dictGet rc "days" with _ | d3
          · exact Or.inr (Or.inl ⟨"KeyError", by simp [sbatchSchedule, hres, h1, h2, h3]⟩)
          · rcases h4 : dictGet rc "hours" with _ | d4
            · exact Or.inr (Or.inl ⟨"KeyError",
                by simp [sbatchSchedule, hres, h1, h2, h3, h4]⟩)
            · rcases h5 : dictGet rc "minutes" with _ | d5
              · exact Or.inr (Or.inl ⟨"KeyError",
                  by simp [sbatchSchedule, hres, h1, h2, h3, h4, h5]⟩)
              · rcases h6 : dictGet rc "partition" with _ | d6
                · exact Or.inr (Or.inl ⟨"KeyError",
                    by simp [sbatchSchedule, hres, h1, h2, h3, h4, h5, h6]⟩)
                · rcases h7 : dictGet rc "cores" with _ | d7
                  · exact Or.inr (Or.inl ⟨"KeyError",
                      by simp [sbatchSchedule, hres, h1, h2, h3, h4, h5, h6, h7]⟩)
                  · rcases hx : sbatchExtract cap with i | raw | _
                    · exact Or.inr (Or.inr (Or.inl ⟨i,
                        sbatch_cmd (sbatch_log_file job) (sbatch_dep_str job.dependencies)
                          a d6 d7 d3 d4 d5 ("snakemake_" ++ job.rule)
                          (dictGetD rc "extra_parameters" "") w job.scriptname, rfl,
                        by simp [sbatchSchedule, hres, h1, h2, h3, h4, h5, h6, h7, hx]⟩))
                    · have hraw := sbatchExtract_valueError_raw hx
                      subst hraw
                      exact Or.inr (Or.inr (Or.inr (Or.inl ⟨
                        sbatch_cmd (sbatch_log_file job) (sbatch_dep_str job.dependencies)
                          a d6 d7 d3 d4 d5 ("snakemake_" ++ job.rule)
                          (dictGetD rc "extra_parameters" "") w job.scriptname, rfl,
                        by simp [sbatchSchedule, hres, h1, h2, h3, h4, h5, h6, h7, hx]⟩)))
                    · exact Or.inr (Or.inr (Or.inr (Or.inr ⟨
                        sbatch_cmd (sbatch_log_file job) (sbatch_dep_str job.dependencies)
                          a d6 d7 d3 d4 d5 ("snakemake_" ++ job.rule)
                          (dictGetD rc "extra_parameters" "") w job.scriptname, rfl,
                        by simp [sbatchSchedule, hres, h1, h2, h3, h4, h5, h6, h7, hx]⟩)))

/-- C2: for every rule name whose lookup key schedule_<rule> is absent
from the configuration table, scheduling fails with UndefinedJobRule
carrying the message naming that rule (printed to stderr by the main
handler, exit status 2), and neither backend ever reaches the Submitted
step, so no external submission process is spawned. -/
theorem missing_schedule_config_aborts (job : SnakeJob) (cfg : Config) (cap : String)
    (h : cfgLookup cfg ("schedule_" ++ job.rule) = none) :
    resolveRuleConf cfg job.rule =
      Except.error ("No schedule config found for schedule_" ++ job.rule) ∧
    Event.submitted ∉ (qsubSchedule job cfg cap).events ∧
    (qsubSchedule job cfg cap).stderrLines =
      ["No schedule config found for schedule_" ++ job.rule] ∧
    (qsubSchedule job cfg cap).exit = RunExit.exited 2 ∧
    Event.submitted ∉ (sbatchSchedule job cfg cap).events ∧
    (sbatchSchedule job cfg cap).stderrLines =
      ["No schedule config found for schedule_" ++ job.rule] ∧
    (sbatchSchedule job cfg cap).exit = RunExit.exited 2 := by
  have hres : resolveRuleConf cfg job.rule =
      Except.error ("No schedule config found for schedule_" ++ job.rule) := by
    simp [resolveRuleConf, h]
  refine ⟨hres, ?_, ?_, ?_, ?_, ?_, ?_⟩
  · simp only [qsubSchedule, hres]
    exact notin_pre_append (by decide) (by decide) (by decide) (by decide)
  · simp [qsubSchedule, hres]
  · simp [qsubSchedule, hres]
  · simp only [sbatchSchedule, hres]
    exact notin_pre_append (by decide) (by decide) (by decide) (by decide)
  · simp [sbatchSchedule, hres]
  · simp [sbatchSchedule, hres]

/-- C2 witness: rule foo with the empty configuration table. -/
theorem missing_schedule_config_aborts_witness :
    resolveRuleConf [] jobOut.rule =
      Except.error ("No schedule config found for schedule_" ++ jobOut.rule) ∧
    Event.submitted ∉ (qsubSchedule jobOut [] "x").events ∧
    (qsubSchedule jobOut [] "x").stderrLines =
      ["No schedule config found for schedule_" ++ jobOut.rule] ∧
    (qsubSchedule jobOut [] "x").exit = RunExit.exited 2 ∧
    Event.submitted ∉ (sbatchSchedule jobOut [] "x").events ∧
    (sbatchSchedule jobOut [] "x").stderrLines =
      ["No schedule config found for schedule_" ++ jobOut.rule] ∧
    (sbatchSchedule jobOut [] "x").exit = RunExit.exited 2 :=
  missing_schedule_config_aborts jobOut [] "x" rfl

/-- C3: a lookup key whose stored value is a concrete record resolves to
that record unchanged; a lookup key whose stored value is a redirect
string starting with schedule_ whose target key exists resolves to the
target key's stored record, not the redirect string. -/
theorem resolver_direct_and_redirect (cfg : Config) (rule s : String)
    (r r2 : List (String × String)) :
    (cfgLookup cfg ("schedule_" ++ rule) = some (ConfigVal.obj r) →
      resolveRuleConf cfg rule = Except.ok (ConfigVal.obj r)) ∧
    (cfgLookup cfg ("schedule_" ++ rule) = some (ConfigVal.str s) →
      pyStartsWith s "schedule_" = true →
      cfgLookup cfg s = some (ConfigVal.obj r2) →
      resolveRuleConf cfg rule = Except.ok (ConfigVal.obj r2)) := by
  constructor
  · intro h
    simp [resolveRuleConf, h]
  · intro h hs ht
    simp [resolveRuleConf, h, hs, ht]

/-- C3 witness: a direct record for rule foo, and a redirect from rule
foo to the record of rule bar. -/
theorem resolver_direct_and_redirect_witness :
    resolveRuleConf cfgQsub "foo" =
      Except.ok (ConfigVal.obj [("queue", "batch.q"), ("threads", "4")]) ∧
    resolveRuleConf cfgRedirOk "foo" =
      Except.ok (ConfigVal.obj [("queue", "long.q"), ("threads", "2")]) :=
  ⟨(resolver_direct_and_redirect cfgQsub "foo" ""
      [("queue", "batch.q"), ("threads", "4")] []).1 (by decide),
   (resolver_direct_and_redirect cfgRedirOk "foo" "schedule_bar" []
      [("queue", "long.q"), ("threads", "2")]).2 (by decide) (by decide) (by decide)⟩

/-- C4: the dependency encoding is empty if and only if the dependency
list is absent (None) or empty; a non-empty list is encoded by qsub as
-hold_jid with the ids comma-joined, and by sbatch as -d with each id
prefixed by afterok: and comma-joined. -/
theorem dependency_encoding (deps : Option (List String)) (x : String) (l : List String) :
    (qsub_dep_str deps = "" ↔ (deps = none ∨ deps = some [])) ∧
    (sbatch_dep_str deps = "" ↔ (deps = none ∨ deps = some [])) ∧
    (deps = some (x :: l) →
      qsub_dep_str deps = "-hold_jid " ++ String.intercalate "," (x :: l) ∧
      sbatch_dep_str deps =
        "-d " ++ String.intercalate "," ((x :: l).map (fun d => "afterok:" ++ d))) := by
  refine ⟨?_, ?_, ?_⟩
  · rcases deps with _ | (_ | ⟨y, rest⟩)
    · simp [qsub_dep_str, normalizeDeps]
    · simp [qsub_dep_str, normalizeDeps]
    · simp only [qsub_dep_str, normalizeDeps]
      constructor
      · intro h
        simp at h
        exact absurd h (append_ne_empty_left (by decide))
      · intro h
        rcases h with h | h <;> simp at h
  · rcases deps with _ | (_ | ⟨y, rest⟩)
    · simp [sbatch_dep_str, normalizeDeps]
    · simp [sbatch_dep_str, normalizeDeps]
    · simp only [sbatch_dep_str, normalizeDeps]
      constructor
      · intro h
        simp at h
        exact absurd h (append_ne_empty_left (by decide))
      · intro h
        rcases h with h | h <;> simp at h
  · intro h
    subst h
    constructor
    · simp [qsub_dep_str, normalizeDeps]
    · simp [sbatch_dep_str, normalizeDeps]

/-- C4 witness: ids 5 and 7 produce the documented encodings, and the
empty and absent lists produce the empty encoding. -/
theorem dependency_encoding_witness :
    qsub_dep_str (some ["5", "7"]) = "-hold_jid 5,7" ∧
    sbatch_dep_str (some ["5", "7"]) = "-d afterok:5,afterok:7" ∧
    qsub_dep_str none = "" :=
  ⟨((dependency_encoding (some ["5", "7"]) "5" ["7"]).2.2 rfl).1.trans (by decide),
   ((dependency_encoding (some ["5", "7"]) "5" ["7"]).2.2 rfl).2.trans (by decide),
   (dependency_encoding none "" []).1.mpr (Or.inl rfl)⟩

/-- C5: a redirect string whose target key is absent fails with
UndefinedJobRule naming the redirect target, and that message differs
from the message that would name the original rule's key. -/
theorem redirect_missing_target (cfg : Config) (rule s : String)
    (hk : cfgLookup cfg ("schedule_" ++ rule) = some (ConfigVal.str s))
    (hs : pyStartsWith s "schedule_" = true)
    (ht : cfgLookup cfg s = none) :
    resolveRuleConf cfg rule = Except.error ("No schedule config found for " ++ s) ∧
    "No schedule config found for " ++ s ≠
      "No schedule config found for schedule_" ++ rule := by
  constructor
  · simp [resolveRuleConf, hk, hs, ht]
  · intro hmsg
    have hsne : s ≠ "schedule_" ++ rule := by
      intro he
      rw [he] at ht
      rw [ht] at hk
      exact Option.noConfusion hk
    have hsplit : "No schedule config found for schedule_" ++ rule =
        "No schedule config found for " ++ ("schedule_" ++ rule) := by
      have : ("No schedule config found for " ++ "schedule_") ++ rule =
          "No schedule config found for " ++ ("schedule_" ++ rule) :=
        String.append_assoc _ _ _
      exact this ▸ rfl
    rw [hsplit] at hmsg
    exact hsne (string_append_left_cancel hmsg)

/-- C5 witness: rule foo redirecting to the absent key schedule_bar. -/
theorem redirect_missing_target_witness :
    resolveRuleConf cfgRedirBad "foo" =
      Except.error ("No schedule config found for " ++ "schedule_bar") ∧
    "No schedule config found for " ++ "schedule_bar" ≠
      "No schedule config found for schedule_" ++ "foo" :=
  redirect_missing_target cfgRedirBad "foo" "schedule_bar" (by decide) (by decide) rfl

/-- C9 counterexample: for a concrete sbatch invocation of a job with
output path out/a.txt the echoed submission command (the sole stderr
line) mentions the log file out/a.txt-slurm.out but contains no
occurrence of .err at all: the Slurm-style backend configures no error
file named out/a.txt-slurm.err, contradicting the claim that both
backends name an error file. -/
theorem sbatch_defines_no_err_file :
    (sbatchSchedule jobOut cfgSbatch "Submitted batch job 98765").stderrLines =
      [sbatchEchoFoo] ∧
    containsChars ".err".toList sbatchEchoFoo.toList = false ∧
    containsChars "out/a.txt-slurm.out".toList sbatchEchoFoo.toList = true := by
  refine ⟨rfl, ?_, ?_⟩ <;> decide

/-- C9 amended: when a job declares output paths, the qsub backend names
log and error files by suffixing the first output path with -qsub.out
and -qsub.err, and the sbatch backend names only a log file suffixed
with -slurm.out (it defines no error file); with no output paths each
falls back to the rule-name-derived snakemake-<rule>-<backend> pattern. -/
theorem log_err_file_naming (job : SnakeJob) (o : String) (rest : List String) :
    (job.ofiles = o :: rest →
      qsub_log_file job = o ++ "-qsub.out" ∧
      qsub_err_file job = o ++ "-qsub.err" ∧
      sbatch_log_file job = o ++ "-slurm.out") ∧
    (job.ofiles = [] →
      qsub_log_file job = "snakemake-" ++ job.rule ++ "-qsub.out" ∧
      qsub_err_file job = "snakemake-" ++ job.rule ++ "-qsub.err" ∧
      sbatch_log_file job = "snakemake-" ++ job.rule ++ "-slurm.out") := by
  constructor
  · intro h
    exact ⟨by simp [qsub_log_file, h], by simp [qsub_err_file, h],
      by simp [sbatch_log_file, h]⟩
  · intro h
    exact ⟨by simp [qsub_log_file, h], by simp [qsub_err_file, h],
      by simp [sbatch_log_file, h]⟩

/-- C9 witness: the job with output out/a.txt and the job with no
outputs produce the coded file names. -/
theorem log_err_file_naming_witness :
    (qsub_log_file jobOut = "out/a.txt" ++ "-qsub.out" ∧
      qsub_err_file jobOut = "out/a.txt" ++ "-qsub.err" ∧
      sbatch_log_file jobOut = "out/a.txt" ++ "-slurm.out") ∧
    (qsub_log_file jobNoOut = "snakemake-" ++ jobNoOut.rule ++ "-qsub.out" ∧
      qsub_err_file jobNoOut = "snakemake-" ++ jobNoOut.rule ++ "-qsub.err" ∧
      sbatch_log_file jobNoOut = "snakemake-" ++ jobNoOut.rule ++ "-slurm.out") :=
  ⟨(log_err_file_naming jobOut "out/a.txt" []).1 rfl,
   (log_err_file_naming jobNoOut "" []).2 rfl⟩

theorem pyStrip_cons_of_not_ws {c : Char} (hc : c.isWhitespace = false) (cs : List Char) :
    ∃ t, pyStrip (c :: cs) = c :: t := by
  unfold pyStrip
  rw [List.dropWhile_cons_of_neg (by simp [hc])]
  have hne : (c :: cs).reverse.dropWhile Char.isWhitespace ≠ [] := by
    intro h
    have hmem : c ∈ (c :: cs).reverse := by simp
    have hall := List.dropWhile_eq_nil_iff.mp h c hmem
    rw [hc] at hall
    exact Bool.noConfusion hall
  have hsuf : (c :: cs).reverse.dropWhile Char.isWhitespace <:+ (c :: cs).reverse :=
    List.dropWhile_suffix _
  have hpre : ((c :: cs).reverse.dropWhile Char.isWhitespace).reverse <+: (c :: cs) := by
    rw [← List.reverse_reverse (c :: cs)] at hsuf ⊢
    exact List.reverse_prefix.mpr (by simpa using hsuf)
  rcases hpre with ⟨t2, ht2⟩
  rcases hr : ((c :: cs).reverse.dropWhile Char.isWhitespace).reverse with _ | ⟨a, as⟩
  · exfalso
    apply hne
    have := congrArg List.reverse hr
    simpa using this
  · rw [hr] at ht2
    have h1 : a = c := by
      have := congrArg (fun l => l.head?) ht2
      simpa using this
    exact ⟨as, by rw [h1]⟩

theorem pyParseInt_none_of_strip_N {s : String} {t : List Char}
    (h : pyStrip s.toList = 'N' :: t) : pyParseInt s = none := by
  unfold pyParseInt
  rw [h]
  have hd : pyDigits ('N' :: t) = ('N'.isDigit && pyDigitsRest t) := rfl
  have hnd : 'N'.isDigit = false := by decide
  split
  · next rest heq =>
    exfalso
    injection heq with h1 h2
    exact absurd h1 (by decide)
  · next rest heq =>
    exfalso
    injection heq with h1 h2
    exact absurd h1 (by decide)
  · simp [pyDigits, hnd]

theorem diagnostic_line_not_an_integer (cap : String) :
    pyParseInt ("Not a submitted job: " ++ cap) = none := by
  have hdata : ("Not a submitted job: " ++ cap).toList =
      'N' :: ("ot a submitted job: ".toList ++ cap.toList) := by
    have h1 : ("Not a submitted job: " ++ cap).data =
        "Not a submitted job: ".data ++ cap.data := String.data_append _ _
    have h2 : "Not a submitted job: ".data = 'N' :: "ot a submitted job: ".data := by decide
    show ("Not a submitted job: " ++ cap).data =
      'N' :: ("ot a submitted job: ".data ++ cap.data)
    rw [h1, h2]
    rfl
  rcases pyStrip_cons_of_not_ws (c := 'N') (by decide)
      ("ot a submitted job: ".toList ++ cap.toList) with ⟨t, ht⟩
  refine pyParseInt_none_of_strip_N (t := t) ?_
  rw [hdata]
  exact ht

theorem codeEventOrder_eq : codeEventOrder =
    [Event.start, Event.metadataParsed, Event.directoryEnsured] ++
    [Event.configMissing, Event.configResolved, Event.commandBuilt, Event.submitted,
     Event.idExtracted, Event.extractionFailed, Event.uncaughtIndexError] := rfl

/-- C1: when the backend-selected token of the captured submission-tool
output (third whitespace-delimited token for qsub, last for sbatch)
parses as an integer, the adapter prints exactly that integer, alone, to
standard output, and returns normally. -/
theorem jobid_extraction_prints_id (job : SnakeJob) (cfg : Config) (cap tok : String)
    (i : Int) :
    (Event.submitted ∈ (qsubSchedule job cfg cap).events →
      (pySplit cap)[2]? = some tok → pyParseInt tok = some i →
      (qsubSchedule job cfg cap).stdoutLines = [toString i] ∧
      (qsubSchedule job cfg cap).exit = RunExit.normal) ∧
    (Event.submitted ∈ (sbatchSchedule job cfg cap).events →
      (pySplit cap).getLast? = some tok → pyParseInt tok = some i →
      (sbatchSchedule job cfg cap).stdoutLines = [toString i] ∧
      (sbatchSchedule job cfg cap).exit = RunExit.normal) := by
  constructor
  · intro hsub htok hparse
    have hx := qsubExtract_of_parse_ok htok hparse
    rcases qsub_shape job cfg cap with ⟨msg, _, heq⟩ | ⟨exc, heq⟩ |
      ⟨i2, cmd, hx2, heq⟩ | ⟨cmd, hx2, heq⟩ | ⟨cmd, hx2, heq⟩
    · rw [heq] at hsub
      exact absurd hsub (notin_pre_append (by decide) (by decide) (by decide) (by decide))
    · rw [heq] at hsub
      exact absurd hsub (notin_pre_append (by decide) (by decide) (by decide) (by decide))
    · have h2 := hx.symm.trans hx2
      injection h2 with h3
      subst h3
      rw [heq]
      exact ⟨rfl, rfl⟩
    · have h2 := hx.symm.trans hx2
      exact absurd h2 (by simp)
    · have h2 := hx.symm.trans hx2
      exact absurd h2 (by simp)
  · intro hsub htok hparse
    have hx := sbatchExtract_of_parse_ok htok hparse
    rcases sbatch_shape job cfg cap with ⟨msg, _, heq⟩ | ⟨exc, heq⟩ |
      ⟨i2, cmd, hx2, heq⟩ | ⟨cmd, hx2, heq⟩ | ⟨cmd, hx2, heq⟩
    · rw [heq] at hsub
      exact absurd hsub (notin_pre_append (by decide) (by decide) (by decide) (by decide))
    · rw [heq] at hsub
      exact absurd hsub (notin_pre_append (by decide) (by decide) (by decide) (by decide))
    · have h2 := hx.symm.trans hx2
      injection h2 with h3
      subst h3
      rw [heq]
      exact ⟨rfl, rfl⟩
    · have h2 := hx.symm.trans hx2
      exact absurd h2 (by simp)
    · have h2 := hx.symm.trans hx2
      exact absurd h2 (by simp)

/-- C1 witness: the documented qsub banner yields 12345 on stdout with a
normal return. -/
theorem jobid_extraction_prints_id_witness :
    (qsubSchedule jobOut cfgQsub "Your job 12345 (\"x\") has been submitted").stdoutLines =
      [toString (12345 : Int)] ∧
    (qsubSchedule jobOut cfgQsub "Your job 12345 (\"x\") has been submitted").exit =
      RunExit.normal :=
  (jobid_extraction_prints_id jobOut cfgQsub
      "Your job 12345 (\"x\") has been submitted" "12345" 12345).1
    (by decide) (by decide) (by decide)

/-- C6: when the backend-selected token does not parse as an integer,
the adapter prints the diagnostic naming the raw captured text, never
reaches the id-printing step, prints no line parseable as an integer,
and exits with status 2. -/
theorem extraction_failure_diagnostic_exit2 (job : SnakeJob) (cfg : Config)
    (cap tok : String) :
    (Event.submitted ∈ (qsubSchedule job cfg cap).events →
      (pySplit cap)[2]? = some tok → pyParseInt tok = none →
      (qsubSchedule job cfg cap).stdoutLines = ["Not a submitted job: " ++ cap] ∧
      pyParseInt ("Not a submitted job: " ++ cap) = none ∧
      Event.idExtracted ∉ (qsubSchedule job cfg cap).events ∧
      (qsubSchedule job cfg cap).exit = RunExit.exited 2) ∧
    (Event.submitted ∈ (sbatchSchedule job cfg cap).events →
      (pySplit cap).getLast? = some tok → pyParseInt tok = none →
      (sbatchSchedule job cfg cap).stdoutLines = ["Not a submitted job: " ++ cap] ∧
      pyParseInt ("Not a submitted job: " ++ cap) = none ∧
      Event.idExtracted ∉ (sbatchSchedule job cfg cap).events ∧
      (sbatchSchedule job cfg cap).exit = RunExit.exited 2) := by
  constructor
  · intro hsub htok hparse
    have hx := qsubExtract_of_parse_fail htok hparse
    rcases qsub_shape job cfg cap with ⟨msg, _, heq⟩ | ⟨exc, heq⟩ |
      ⟨i2, cmd, hx2, heq⟩ | ⟨cmd, hx2, heq⟩ | ⟨cmd, hx2, heq⟩
    · rw [heq] at hsub
      exact absurd hsub (notin_pre_append (by decide) (by decide) (by decide) (by decide))
    · rw [heq] at hsub
      exact absurd hsub (notin_pre_append (by decide) (by decide) (by decide) (by decide))
    · exact absurd (hx.symm.trans hx2) (by simp)
    · rw [heq]
      refine ⟨rfl, diagnostic_line_not_an_integer cap, ?_, rfl⟩
      exact notin_pre_append (by decide) (by decide) (by decide) (by decide)
    · exact absurd (hx.symm.trans hx2) (by simp)
  · intro hsub htok hparse
    have hx := sbatchExtract_of_parse_fail htok hparse
    rcases sbatch_shape job cfg cap with ⟨msg, _, heq⟩ | ⟨exc, heq⟩ |
      ⟨i2, cmd, hx2, heq⟩ | ⟨cmd, hx2, heq⟩ | ⟨cmd, hx2, heq⟩
    · rw [heq] at hsub
      exact absurd hsub (notin_pre_append (by decide) (by decide) (by decide) (by decide))
    · rw [heq] at hsub
      exact absurd hsub (notin_pre_append (by decide) (by decide) (by decide) (by decide))
    · exact absurd (hx.symm.trans hx2) (by simp)
    · rw [heq]
      refine ⟨rfl, diagnostic_line_not_an_integer cap, ?_, rfl⟩
      exact notin_pre_append (by decide) (by decide) (by decide) (by decide)
    · exact absurd (hx.symm.trans hx2) (by simp)

/-- C6 witness: a non-numeric captured text on the qsub backend. -/
theorem extraction_failure_diagnostic_exit2_witness :
    (qsubSchedule jobOut cfgQsub "alpha beta gamma").stdoutLines =
      ["Not a submitted job: " ++ "alpha beta gamma"] ∧
    pyParseInt ("Not a submitted job: " ++ "alpha beta gamma") = none ∧
    Event.idExtracted ∉ (qsubSchedule jobOut cfgQsub "alpha beta gamma").events ∧
    (qsubSchedule jobOut cfgQsub "alpha beta gamma").exit = RunExit.exited 2 :=
  (extraction_failure_diagnostic_exit2 jobOut cfgQsub "alpha beta gamma" "gamma").1
    (by decide) (by decide) (by decide)

/-- C7 counterexample: on a concrete qsub invocation whose captured text
has a non-numeric third token, the job-id-extraction failure diagnostic
is printed to standard output (the Python print call has no stderr
target), contradicting the claim that failure explanations are never
mixed into standard output. -/
theorem extraction_diag_printed_to_stdout :
    (qsubSchedule jobOut cfgQsub "alpha beta gamma").stdoutLines =
      ["Not a submitted job: alpha beta gamma"] ∧
    (qsubSchedule jobOut cfgQsub "alpha beta gamma").stderrLines ≠
      ["Not a submitted job: alpha beta gamma"] := by
  constructor <;> decide

/-- C7 amended: the echoed submission command and the UndefinedJobRule
message go to the diagnostic stream (stderr) and on success standard
output carries exactly one line holding the decimal job id; the
job-id-extraction failure message, however, is printed to standard
output, not to the diagnostic stream. -/
theorem stream_discipline_as_coded (job : SnakeJob) (cfg : Config) (cap : String) :
    ((qsubSchedule job cfg cap).exit = RunExit.normal →
      ∃ i : Int, (qsubSchedule job cfg cap).stdoutLines = [toString i]) ∧
    (Event.extractionFailed ∈ (qsubSchedule job cfg cap).events →
      (qsubSchedule job cfg cap).stdoutLines = ["Not a submitted job: " ++ cap]) ∧
    (Event.configMissing ∈ (qsubSchedule job cfg cap).events →
      (qsubSchedule job cfg cap).stdoutLines = [] ∧
      ∃ m, (qsubSchedule job cfg cap).stderrLines = [m]) ∧
    (Event.submitted ∈ (qsubSchedule job cfg cap).events →
      ∃ c, (qsubSchedule job cfg cap).stderrLines = [c]) ∧
    ((sbatchSchedule job cfg cap).exit = RunExit.normal →
      ∃ i : Int, (sbatchSchedule job cfg cap).stdoutLines = [toString i]) ∧
    (Event.extractionFailed ∈ (sbatchSchedule job cfg cap).events →
      (sbatchSchedule job cfg cap).stdoutLines = ["Not a submitted job: " ++ cap]) ∧
    (Event.configMissing ∈ (sbatchSchedule job cfg cap).events →
      (sbatchSchedule job cfg cap).stdoutLines = [] ∧
      ∃ m, (sbatchSchedule job cfg cap).stderrLines = [m]) ∧
    (Event.submitted ∈ (sbatchSchedule job cfg cap).events →
      ∃ c, (sbatchSchedule job cfg cap).stderrLines = [c]) := by
  rcases qsub_shape job cfg cap with ⟨msg, _, heq⟩ | ⟨exc, heq⟩ |
      ⟨i2, cmd, hx2, heq⟩ | ⟨cmd, hx2, heq⟩ | ⟨cmd, hx2, heq⟩ <;>
    rcases sbatch_shape job cfg cap with ⟨msg2, _, heq2⟩ | ⟨exc2, heq2⟩ |
      ⟨j2, cmd2, hy2, heq2⟩ | ⟨cmd2, hy2, heq2⟩ | ⟨cmd2, hy2, heq2⟩ <;>
    rw [heq, heq2] <;>
    refine ⟨?_, ?_, ?_, ?_, ?_, ?_, ?_, ?_⟩ <;>
    intro h <;>
    first
    | rfl
    | exact ⟨i2, rfl⟩
    | exact ⟨j2, rfl⟩
    | exact ⟨cmd, rfl⟩
    | exact ⟨cmd2, rfl⟩
    | exact ⟨msg, rfl⟩
    | exact ⟨msg2, rfl⟩
    | exact ⟨rfl, msg, rfl⟩
    | exact ⟨rfl, msg2, rfl⟩
    | (refine absurd h (notin_pre_append ?_ ?_ ?_ ?_) <;> decide)
    | cases h

/-- C7 witness: a failing extraction shows the diagnostic on stdout, and
a successful one shows the id line. -/
theorem stream_discipline_as_coded_witness :
    (qsubSchedule jobOut cfgQsub "alpha beta gamma").stdoutLines =
      ["Not a submitted job: " ++ "alpha beta gamma"] :=
  (stream_discipline_as_coded jobOut cfgQsub "alpha beta gamma").2.1 (by decide)

/-- C8 counterexample: on a concrete invocation with one declared output
path and an empty configuration table, the trace is Start,
MetadataParsed, DirectoryEnsured, ConfigMissing: the output directory is
ensured before configuration resolution is even attempted, so the trace
is not a subsequence of the claimed order, in which ConfigResolved (or
its ConfigMissing failure) precedes DirectoryEnsured. -/
theorem directory_before_config_resolution :
    (qsubSchedule jobOut [] "x").events =
      [Event.start, Event.metadataParsed, Event.directoryEnsured, Event.configMissing] ∧
    ¬ (qsubSchedule jobOut [] "x").events.Sublist specEventOrder := by
  constructor <;> decide

/-- C8 amended: every trace of either backend is a subsequence of the
order Start, MetadataParsed, DirectoryEnsured, then ConfigMissing or
ConfigResolved, CommandBuilt, Submitted and a terminal extraction event
(the directory is ensured before the configuration is resolved), and a
ConfigMissing failure still exits with status 2 without ever reaching
the Submitted step. -/
theorem schedule_event_order_as_coded (job : SnakeJob) (cfg : Config) (cap : String) :
    (qsubSchedule job cfg cap).events.Sublist codeEventOrder ∧
    (Event.configMissing ∈ (qsubSchedule job cfg cap).events →
      Event.submitted ∉ (qsubSchedule job cfg cap).events ∧
      (qsubSchedule job cfg cap).exit = RunExit.exited 2) ∧
    (sbatchSchedule job cfg cap).events.Sublist codeEventOrder ∧
    (Event.configMissing ∈ (sbatchSchedule job cfg cap).events →
      Event.submitted ∉ (sbatchSchedule job cfg cap).events ∧
      (sbatchSchedule job cfg cap).exit = RunExit.exited 2) := by
  have hq := qsub_shape job cfg cap
  have hs := sbatch_shape job cfg cap
  refine ⟨?_, ?_, ?_, ?_⟩
  · rcases hq with ⟨msg, _, heq⟩ | ⟨exc, heq⟩ | ⟨i2, cmd, _, heq⟩ |
      ⟨cmd, _, heq⟩ | ⟨cmd, _, heq⟩ <;>
      rw [heq, codeEventOrder_eq] <;>
      exact List.Sublist.append (pre_sublist job) (by decide)
  · rcases hq with ⟨msg, _, heq⟩ | ⟨exc, heq⟩ | ⟨i2, cmd, _, heq⟩ |
      ⟨cmd, _, heq⟩ | ⟨cmd, _, heq⟩ <;>
      rw [heq] <;>
      intro h <;>
      first
      | exact ⟨notin_pre_append (by decide) (by decide) (by decide) (by decide), rfl⟩
      | (refine absurd h (notin_pre_append ?_ ?_ ?_ ?_) <;> decide)
  · rcases hs with ⟨msg, _, heq⟩ | ⟨exc, heq⟩ | ⟨i2, cmd, _, heq⟩ |
      ⟨cmd, _, heq⟩ | ⟨cmd, _, heq⟩ <;>
      rw [heq, codeEventOrder_eq] <;>
      exact List.Sublist.append (pre_sublist job) (by decide)
  · rcases hs with ⟨msg, _, heq⟩ | ⟨exc, heq⟩ | ⟨i2, cmd, _, heq⟩ |
      ⟨cmd, _, heq⟩ | ⟨cmd, _, heq⟩ <;>
      rw [heq] <;>
      intro h <;>
      first
      | exact ⟨notin_pre_append (by decide) (by decide) (by decide) (by decide), rfl⟩
      | (refine absurd h (notin_pre_append ?_ ?_ ?_ ?_) <;> decide)

/-- C8 witness: the concrete ConfigMissing run never submits and exits 2. -/
theorem schedule_event_order_as_coded_witness :
    Event.submitted ∉ (qsubSchedule jobOut [] "x").events ∧
    (qsubSchedule jobOut [] "x").exit = RunExit.exited 2 :=
  (schedule_event_order_as_coded jobOut [] "x").2.1 (by decide)

/-- C10: captured text with fewer whitespace-delimited tokens than the
selected position requires (fewer than three for qsub, none at all for
sbatch) makes the token subscript raise an uncaught IndexError before
int() runs: the run crashes instead of taking the documented
diagnostic-and-exit-2 path, printing nothing to stdout and never
reaching the ExtractionFailed step. -/
theorem short_output_uncaught_index_error (job : SnakeJob) (cfg : Config) (cap : String) :
    ((pySplit cap).length < 3 → qsubExtract cap = ExtractResult.indexError) ∧
    (pySplit cap = [] → sbatchExtract cap = ExtractResult.indexError) ∧
    (Event.submitted ∈ (qsubSchedule job cfg cap).events → (pySplit cap).length < 3 →
      (qsubSchedule job cfg cap).exit = RunExit.crashed "IndexError" ∧
      Event.extractionFailed ∉ (qsubSchedule job cfg cap).events ∧
      (qsubSchedule job cfg cap).stdoutLines = []) ∧
    (Event.submitted ∈ (sbatchSchedule job cfg cap).events → pySplit cap = [] →
      (sbatchSchedule job cfg cap).exit = RunExit.crashed "IndexError" ∧
      Event.extractionFailed ∉ (sbatchSchedule job cfg cap).events ∧
      (sbatchSchedule job cfg cap).stdoutLines = []) := by
  refine ⟨fun h => qsubExtract_of_short h, fun h => sbatchExtract_of_empty h, ?_, ?_⟩
  · intro hsub hlen
    have hx := qsubExtract_of_short hlen
    rcases qsub_shape job cfg cap with ⟨msg, _, heq⟩ | ⟨exc, heq⟩ |
      ⟨i2, cmd, hx2, heq⟩ | ⟨cmd, hx2, heq⟩ | ⟨cmd, hx2, heq⟩
    · rw [heq] at hsub
      exact absurd hsub (notin_pre_append (by decide) (by decide) (by decide) (by decide))
    · rw [heq] at hsub
      exact absurd hsub (notin_pre_append (by decide) (by decide) (by decide) (by decide))
    · exact absurd (hx.symm.trans hx2) (by simp)
    · exact absurd (hx.symm.trans hx2) (by simp)
    · rw [heq]
      exact ⟨rfl, notin_pre_append (by decide) (by decide) (by decide) (by decide), rfl⟩
  · intro hsub hlen
    have hx := sbatchExtract_of_empty hlen
    rcases sbatch_shape job cfg cap with ⟨msg, _, heq⟩ | ⟨exc, heq⟩ |
      ⟨i2, cmd, hx2, heq⟩ | ⟨cmd, hx2, heq⟩ | ⟨cmd, hx2, heq⟩
    · rw [heq] at hsub
      exact absurd hsub (notin_pre_append (by decide) (by decide) (by decide) (by decide))
    · rw [heq] at hsub
      exact absurd hsub (notin_pre_append (by decide) (by decide) (by decide) (by decide))
    · exact absurd (hx.symm.trans hx2) (by simp)
    · exact absurd (hx.symm.trans hx2) (by simp)
    · rw [heq]
      exact ⟨rfl, notin_pre_append (by decide) (by decide) (by decide) (by decide), rfl⟩

/-- C10 witness: a two-token captured text crashes the qsub adapter with
the uncaught IndexError. -/
theorem short_output_uncaught_index_error_witness :
    (qsubSchedule jobOut cfgQsub "alpha beta").exit = RunExit.crashed "IndexError" ∧
    Event.extractionFailed ∉ (qsubSchedule jobOut cfgQsub "alpha beta").events ∧
    (qsubSchedule jobOut cfgQsub "alpha beta").stdoutLines = [] :=
  (short_output_uncaught_index_error jobOut cfgQsub "alpha beta").2.2.1
    (by decide) (by decide)
